import Mathlib

/-!
Shallow embedding of the Pong_8BIT game core (PongGame component).

Numeric quantities are modelled as rationals: the source uses JavaScript
numbers but every constant involved (6.5, 0.5, 0.75, paddle sizes, ...)
is exactly representable and all the arithmetic the claims exercise is
exact, so ℚ is a faithful model of the values that actually occur.
Scores are naturals. The network / audio side effects (sendSound,
sendHostUpdate, sendClientInput, setUiState) do not touch the match
state and are omitted; only the mutations of the `gameState` record are
embedded. `Math.random() > 0.5` outcomes are passed in as explicit
Bool parameters, and the two nicknames feeding winner resolution are
explicit String parameters.
-/

namespace Pong

/-- Field width (GAME_WIDTH = 800). -/
def GAME_WIDTH : ℚ := 800

/-- Field height (GAME_HEIGHT = 600). -/
def GAME_HEIGHT : ℚ := 600

/-- PADDLE_WIDTH = 15. -/
def PADDLE_WIDTH : ℚ := 15

/-- PADDLE_HEIGHT = 80. -/
def PADDLE_HEIGHT : ℚ := 80

/-- BALL_SIZE = 12. -/
def BALL_SIZE : ℚ := 12

/-- WINNING_SCORE = 11. -/
def WINNING_SCORE : ℕ := 11

/-- COMPUTER_SPEED = 6.5. -/
def COMPUTER_SPEED : ℚ := 13 / 2

/-- INITIAL_BALL_SPEED = 7. -/
def INITIAL_BALL_SPEED : ℚ := 7

/-- MAX_BALL_SPEED = 14. -/
def MAX_BALL_SPEED : ℚ := 14

/-- PADDLE_OFFSET = 35 (horizontal inset of the paddles). -/
def PADDLE_INSET : ℚ := 35

/-- The `Ball` interface: position, velocity and scalar speed. -/
structure Ball where
  x : ℚ
  y : ℚ
  dx : ℚ
  dy : ℚ
  speed : ℚ
deriving DecidableEq, Repr

/-- The mode tag: 'SINGLE' | 'HOST' | 'CLIENT'. -/
inductive Mode where
  | SINGLE : Mode
  | HOST : Mode
  | CLIENT : Mode
deriving DecidableEq, Repr

/-- The `GameState` interface (the mutable `gameState.current` record). -/
structure GameState where
  ball : Ball
  paddleLeftY : ℚ
  paddleRightY : ℚ
  scoreLeft : ℕ
  scoreRight : ℕ
  isRunning : Bool
  isGameOver : Bool
  winner : Option String
  mode : Mode
deriving DecidableEq, Repr

/-- The `NetworkState` snapshot sent HOST → CLIENT. -/
structure NetworkState where
  ball : Ball
  pLeft : ℚ
  pRight : ℚ
  sLeft : ℕ
  sRight : ℕ
deriving DecidableEq, Repr

/-- Which side won the rally, mirroring the string union 'left' | 'right'. -/
inductive Side where
  | left : Side
  | right : Side
deriving DecidableEq, Repr

/-- `resetBall(winnerSide)`. The `Math.random() > 0.5` outcome deciding the
vertical direction is passed in as `randUp`. -/
def resetBall (winnerSide : Side) (randUp : Bool) (b : Ball) : Ball :=
  let x := GAME_WIDTH / 2 - BALL_SIZE / 2
  let y := GAME_HEIGHT / 2 - BALL_SIZE / 2
  let speed := INITIAL_BALL_SPEED
  let directionX : ℚ := if winnerSide = Side.left then 1 else -1
  let directionY : ℚ := if randUp then 1 else -1
  { b with
    x := x
    y := y
    speed := speed
    dx := directionX * speed
    dy := directionY * (speed * (3 / 4)) }

/-- `endGame(winnerName)`: stop the match, record the winner. -/
def endGame (winnerName : String) (s : GameState) : GameState :=
  { s with isRunning := false, isGameOver := true, winner := some winnerName }

/-- `checkWinCondition()`. Winner-name resolution depends on the mode and
the two nicknames exactly as in the source (`localNickname`,
`uiState.remoteNickname`). -/
def checkWinCondition (localName remoteName : String) (s : GameState) :
    GameState :=
  if WINNING_SCORE ≤ s.scoreLeft then
    endGame (if s.mode = Mode.CLIENT then remoteName else localName) s
  else if WINNING_SCORE ≤ s.scoreRight then
    endGame (if s.mode = Mode.CLIENT then localName else remoteName) s
  else s

/-- The AI block of `update` (SINGLE branch): proportional tracking with a
dead zone of 10 around `targetY = ball.y - PADDLE_HEIGHT/2`, then clamping
into [0, GAME_HEIGHT - PADDLE_HEIGHT]. -/
def aiMove (s : GameState) : GameState :=
  let targetY := s.ball.y - PADDLE_HEIGHT / 2
  let moved :=
    if s.paddleRightY + 10 < targetY then s.paddleRightY + COMPUTER_SPEED
    else if targetY < s.paddleRightY - 10 then s.paddleRightY - COMPUTER_SPEED
    else s.paddleRightY
  { s with paddleRightY := max 0 (min (GAME_HEIGHT - PADDLE_HEIGHT) moved) }

/-- Ball integration: `ball.x += dx; ball.y += dy`. -/
def moveBall (s : GameState) : GameState :=
  { s with ball := { s.ball with x := s.ball.x + s.ball.dx, y := s.ball.y + s.ball.dy } }

/-- Wall collision: invert dy and clamp y to the crossed edge. -/
def wallBounce (s : GameState) : GameState :=
  if s.ball.y ≤ 0 ∨ GAME_HEIGHT ≤ s.ball.y + BALL_SIZE then
    { s with ball := { s.ball with
        dy := s.ball.dy * (-1)
        y := if s.ball.y ≤ 0 then 0 else GAME_HEIGHT - BALL_SIZE } }
  else s

/-- The AABB overlap test of the ball against the left paddle rectangle
(x = PADDLE_INSET, width PADDLE_WIDTH, height PADDLE_HEIGHT). -/
def overlapLeft (s : GameState) : Prop :=
  s.ball.x < PADDLE_INSET + PADDLE_WIDTH ∧
  PADDLE_INSET < s.ball.x + BALL_SIZE ∧
  s.ball.y < s.paddleLeftY + PADDLE_HEIGHT ∧
  s.paddleLeftY < s.ball.y + BALL_SIZE

instance (s : GameState) : Decidable (overlapLeft s) := by
  unfold overlapLeft; infer_instance

/-- The AABB overlap test of the ball against the right paddle rectangle
(x = GAME_WIDTH - PADDLE_INSET - PADDLE_WIDTH). -/
def overlapRight (s : GameState) : Prop :=
  s.ball.x < GAME_WIDTH - PADDLE_INSET - PADDLE_WIDTH + PADDLE_WIDTH ∧
  GAME_WIDTH - PADDLE_INSET - PADDLE_WIDTH < s.ball.x + BALL_SIZE ∧
  s.ball.y < s.paddleRightY + PADDLE_HEIGHT ∧
  s.paddleRightY < s.ball.y + BALL_SIZE

instance (s : GameState) : Decidable (overlapRight s) := by
  unfold overlapRight; infer_instance

/-- Left-paddle collision response: force dx positive, set dy from the hit
point, and if speed is below the cap bump it by 0.5 and reapply it to dx. -/
def leftPaddleCollide (s : GameState) : GameState :=
  if overlapLeft s then
    let dx1 := |s.ball.dx|
    let hitPoint := s.ball.y + BALL_SIZE / 2 - (s.paddleLeftY + PADDLE_HEIGHT / 2)
    let dy1 := hitPoint / (PADDLE_HEIGHT / 2) * 10
    if s.ball.speed < MAX_BALL_SPEED then
      { s with ball := { s.ball with
          dx := s.ball.speed + 1 / 2
          dy := dy1
          speed := s.ball.speed + 1 / 2 } }
    else
      { s with ball := { s.ball with dx := dx1, dy := dy1 } }
  else s

/-- Right-paddle collision response: force dx negative, set dy from the hit
point, and if speed is below the cap bump it by 0.5 and reapply -speed to dx. -/
def rightPaddleCollide (s : GameState) : GameState :=
  if overlapRight s then
    let dx1 := -|s.ball.dx|
    let hitPoint := s.ball.y + BALL_SIZE / 2 - (s.paddleRightY + PADDLE_HEIGHT / 2)
    let dy1 := hitPoint / (PADDLE_HEIGHT / 2) * 10
    if s.ball.speed < MAX_BALL_SPEED then
      { s with ball := { s.ball with
          dx := -(s.ball.speed + 1 / 2)
          dy := dy1
          speed := s.ball.speed + 1 / 2 } }
    else
      { s with ball := { s.ball with dx := dx1, dy := dy1 } }
  else s

/-- The scoring block of `update`: left edge crossed → right scores, right
edge crossed → left scores; in each case the win condition is checked first
and the ball is reset afterwards. -/
def scoreStep (localName remoteName : String) (randUp : Bool)
    (s : GameState) : GameState :=
  if s.ball.x < 0 then
    let s1 := { s with scoreRight := s.scoreRight + 1 }
    let s2 := checkWinCondition localName remoteName s1
    { s2 with ball := resetBall Side.right randUp s2.ball }
  else if GAME_WIDTH < s.ball.x then
    let s1 := { s with scoreLeft := s.scoreLeft + 1 }
    let s2 := checkWinCondition localName remoteName s1
    { s2 with ball := resetBall Side.left randUp s2.ball }
  else s

/-- The SINGLE/HOST body of `update`: AI (SINGLE only), integrate, wall
collision, both paddle collisions, scoring. -/
def physicsTick (localName remoteName : String) (randUp : Bool)
    (s : GameState) : GameState :=
  scoreStep localName remoteName randUp
    (rightPaddleCollide (leftPaddleCollide (wallBounce (moveBall
      (if s.mode = Mode.SINGLE then aiMove s else s)))))

/-- `update()`: no-op unless running and not over; CLIENT only extrapolates
the ball (position += velocity); otherwise the full physics tick runs. -/
def update (localName remoteName : String) (randUp : Bool)
    (s : GameState) : GameState :=
  if s.isRunning = false ∨ s.isGameOver = true then s
  else if s.mode = Mode.CLIENT then moveBall s
  else physicsTick localName remoteName randUp s

/-- `handleNetworkState(netState)` (CLIENT reconciliation). The source
compares `Math.sqrt(squaredDistance) > 50`; since both sides are
non-negative this is equivalent to `squaredDistance > 2500`, which is the
exact form used here (ℚ has no square root). -/
def handleNetworkState (net : NetworkState) (s : GameState) : GameState :=
  let s1 := { s with
    scoreLeft := net.sLeft
    scoreRight := net.sRight
    paddleLeftY := net.pLeft }
  let distSq := (s1.ball.x - net.ball.x) ^ 2 + (s1.ball.y - net.ball.y) ^ 2
  let b :=
    if 2500 < distSq then
      { s1.ball with x := net.ball.x, y := net.ball.y }
    else
      { s1.ball with
        x := s1.ball.x + (net.ball.x - s1.ball.x) * (1 / 2)
        y := s1.ball.y + (net.ball.y - s1.ball.y) * (1 / 2) }
  { s1 with ball := { b with dx := net.ball.dx, dy := net.ball.dy } }

/-- The HOST `conn.on('data')` INPUT branch: `paddleRightY = data.y`
(no clamping). -/
def applyInputMessage (y : ℚ) (s : GameState) : GameState :=
  { s with paddleRightY := y }

/-- `handleInput`, from the point where the pointer position has been
scaled into field coordinates (`relativeY`); the DOM rectangle scaling
itself is rendering-environment code outside the core. The new offset is
clamped into [0, GAME_HEIGHT - PADDLE_HEIGHT] and written to the paddle
the local player controls. -/
def handleInput (relativeY : ℚ) (s : GameState) : GameState :=
  let newY := max 0 (min (GAME_HEIGHT - PADDLE_HEIGHT) (relativeY - PADDLE_HEIGHT / 2))
  if s.mode = Mode.CLIENT then { s with paddleRightY := newY }
  else { s with paddleLeftY := newY }

/-- `startGame(mode)`: fresh match state. `serveLeft` is the
`Math.random() > 0.5` outcome that, for non-CLIENT modes, flips the initial
dx to the left. -/
def startGame (mode : Mode) (serveLeft : Bool) : GameState :=
  let base : GameState := {
    ball := {
      x := GAME_WIDTH / 2
      y := GAME_HEIGHT / 2
      dx := INITIAL_BALL_SPEED
      dy := INITIAL_BALL_SPEED
      speed := INITIAL_BALL_SPEED }
    paddleLeftY := GAME_HEIGHT / 2 - PADDLE_HEIGHT / 2
    paddleRightY := GAME_HEIGHT / 2 - PADDLE_HEIGHT / 2
    scoreLeft := 0
    scoreRight := 0
    isRunning := true
    isGameOver := false
    winner := none
    mode := mode }
  if mode ≠ Mode.CLIENT ∧ serveLeft then
    { base with ball := { base.ball with dx := -INITIAL_BALL_SPEED } }
  else base

/-- A paddle offset lying within [0, GAME_HEIGHT - PADDLE_HEIGHT] = [0, 520]. -/
def paddleInBounds (p : ℚ) : Prop :=
  0 ≤ p ∧ p ≤ GAME_HEIGHT - PADDLE_HEIGHT

instance (p : ℚ) : Decidable (paddleInBounds p) := by
  unfold paddleInBounds; infer_instance

/-- Both paddle offsets of a state lie within bounds. -/
def paddlesInBounds (s : GameState) : Prop :=
  paddleInBounds s.paddleLeftY ∧ paddleInBounds s.paddleRightY

instance (s : GameState) : Decidable (paddlesInBounds s) := by
  unfold paddlesInBounds; infer_instance

/-- The speed bookkeeping invariant of the authoritative simulation: `speed`
equals the magnitude of dx, and speed sits on the grid
{7, 7.5, ..., 14} reachable from the initial speed by 0.5 increments. -/
def speedInv (b : Ball) : Prop :=
  |b.dx| = b.speed ∧ ∃ k : ℕ, k ≤ 14 ∧ b.speed = 7 + (k : ℚ) / 2

/-- A concrete SINGLE-mode state probing the AI dead zone: the ball's
vertical center (246 + 6 = 252) is 12 units below the AI paddle's center
(200 + 40 = 240). -/
def aiProbeState : GameState :=
  { ball := { x := 400, y := 246, dx := 7, dy := 7, speed := 7 }
    paddleLeftY := 260
    paddleRightY := 200
    scoreLeft := 0
    scoreRight := 0
    isRunning := true
    isGameOver := false
    winner := none
    mode := Mode.SINGLE }

/-- A concrete state in which the ball overlaps the left paddle with the
two vertical centers exactly aligned (294 + 6 = 260 + 40 = 300) and the
ball moving toward the paddle (dx < 0). -/
def hitProbeState : GameState :=
  { ball := { x := 40, y := 294, dx := -7, dy := 3, speed := 7 }
    paddleLeftY := 260
    paddleRightY := 260
    scoreLeft := 0
    scoreRight := 0
    isRunning := true
    isGameOver := false
    winner := none
    mode := Mode.SINGLE }

/-- A concrete state mirroring `hitProbeState` on the right paddle: the
ball overlaps the right paddle rectangle (x = 750..765) with centers
aligned and the ball moving toward it (dx > 0). -/
def hitProbeStateR : GameState :=
  { ball := { x := 755, y := 294, dx := 7, dy := 3, speed := 7 }
    paddleLeftY := 260
    paddleRightY := 260
    scoreLeft := 0
    scoreRight := 0
    isRunning := true
    isGameOver := false
    winner := none
    mode := Mode.SINGLE }

/-- A concrete CLIENT-mode state with its predicted ball at the origin,
used to probe reconciliation (the matching snapshot sits 50 units away). -/
def reconProbeState : GameState :=
  { ball := { x := 0, y := 0, dx := 0, dy := 0, speed := 7 }
    paddleLeftY := 260
    paddleRightY := 260
    scoreLeft := 0
    scoreRight := 0
    isRunning := true
    isGameOver := false
    winner := none
    mode := Mode.CLIENT }

/-- A concrete snapshot whose ball sits exactly 50 units (squared distance
2500) from `reconProbeState`'s predicted ball. -/
def reconProbeNet : NetworkState :=
  { ball := { x := 30, y := 40, dx := 5, dy := 5, speed := 7 }
    pLeft := 100
    pRight := 120
    sLeft := 1
    sRight := 2 }

/-- A concrete HOST-mode state one tick away from the ball crossing the
right field edge (x + dx = 795 + 14 = 809 > 800). -/
def scoreProbeState : GameState :=
  { ball := { x := 795, y := 300, dx := 14, dy := 3, speed := 14 }
    paddleLeftY := 260
    paddleRightY := 260
    scoreLeft := 10
    scoreRight := 4
    isRunning := true
    isGameOver := false
    winner := none
    mode := Mode.HOST }

end Pong

namespace Pong

/-! ### Field-preservation lemmas for the tick pipeline -/

@[simp]
theorem aiMove_ball (s : GameState) : (aiMove s).ball = s.ball := rfl

@[simp]
theorem aiMove_paddleLeftY (s : GameState) : (aiMove s).paddleLeftY = s.paddleLeftY := rfl

@[simp]
theorem aiMove_scoreLeft (s : GameState) : (aiMove s).scoreLeft = s.scoreLeft := rfl

@[simp]
theorem aiMove_scoreRight (s : GameState) : (aiMove s).scoreRight = s.scoreRight := rfl

@[simp]
theorem aiMove_isRunning (s : GameState) : (aiMove s).isRunning = s.isRunning := rfl

@[simp]
theorem aiMove_isGameOver (s : GameState) : (aiMove s).isGameOver = s.isGameOver := rfl

@[simp]
theorem aiMove_mode (s : GameState) : (aiMove s).mode = s.mode := rfl

@[simp]
theorem moveBall_x (s : GameState) : (moveBall s).ball.x = s.ball.x + s.ball.dx := rfl

@[simp]
theorem moveBall_y (s : GameState) : (moveBall s).ball.y = s.ball.y + s.ball.dy := rfl

@[simp]
theorem moveBall_dx (s : GameState) : (moveBall s).ball.dx = s.ball.dx := rfl

@[simp]
theorem moveBall_dy (s : GameState) : (moveBall s).ball.dy = s.ball.dy := rfl

@[simp]
theorem moveBall_speed (s : GameState) : (moveBall s).ball.speed = s.ball.speed := rfl

@[simp]
theorem moveBall_paddleLeftY (s : GameState) : (moveBall s).paddleLeftY = s.paddleLeftY := rfl

@[simp]
theorem moveBall_paddleRightY (s : GameState) : (moveBall s).paddleRightY = s.paddleRightY := rfl

@[simp]
theorem moveBall_scoreLeft (s : GameState) : (moveBall s).scoreLeft = s.scoreLeft := rfl

@[simp]
theorem moveBall_scoreRight (s : GameState) : (moveBall s).scoreRight = s.scoreRight := rfl

@[simp]
theorem moveBall_isRunning (s : GameState) : (moveBall s).isRunning = s.isRunning := rfl

@[simp]
theorem moveBall_isGameOver (s : GameState) : (moveBall s).isGameOver = s.isGameOver := rfl

@[simp]
theorem moveBall_winner (s : GameState) : (moveBall s).winner = s.winner := rfl

@[simp]
theorem moveBall_mode (s : GameState) : (moveBall s).mode = s.mode := rfl

@[simp]
theorem wallBounce_x (s : GameState) : (wallBounce s).ball.x = s.ball.x := by
  unfold wallBounce; split_ifs <;> rfl

@[simp]
theorem wallBounce_dx (s : GameState) : (wallBounce s).ball.dx = s.ball.dx := by
  unfold wallBounce; split_ifs <;> rfl

@[simp]
theorem wallBounce_speed (s : GameState) : (wallBounce s).ball.speed = s.ball.speed := by
  unfold wallBounce; split_ifs <;> rfl

@[simp]
theorem wallBounce_paddleLeftY (s : GameState) : (wallBounce s).paddleLeftY = s.paddleLeftY := by
  unfold wallBounce; split_ifs <;> rfl

@[simp]
theorem wallBounce_paddleRightY (s : GameState) : (wallBounce s).paddleRightY = s.paddleRightY := by
  unfold wallBounce; split_ifs <;> rfl

@[simp]
theorem wallBounce_scoreLeft (s : GameState) : (wallBounce s).scoreLeft = s.scoreLeft := by
  unfold wallBounce; split_ifs <;> rfl

@[simp]
theorem wallBounce_scoreRight (s : GameState) : (wallBounce s).scoreRight = s.scoreRight := by
  unfold wallBounce; split_ifs <;> rfl

@[simp]
theorem wallBounce_isRunning (s : GameState) : (wallBounce s).isRunning = s.isRunning := by
  unfold wallBounce; split_ifs <;> rfl

@[simp]
theorem wallBounce_isGameOver (s : GameState) : (wallBounce s).isGameOver = s.isGameOver := by
  unfold wallBounce; split_ifs <;> rfl

@[simp]
theorem wallBounce_mode (s : GameState) : (wallBounce s).mode = s.mode := by
  unfold wallBounce; split_ifs <;> rfl

@[simp]
theorem leftPaddleCollide_x (s : GameState) : (leftPaddleCollide s).ball.x = s.ball.x := by
  unfold leftPaddleCollide; split_ifs <;> rfl

@[simp]
theorem leftPaddleCollide_y (s : GameState) : (leftPaddleCollide s).ball.y = s.ball.y := by
  unfold leftPaddleCollide; split_ifs <;> rfl

@[simp]
theorem leftPaddleCollide_paddleLeftY (s : GameState) :
    (leftPaddleCollide s).paddleLeftY = s.paddleLeftY := by
  unfold leftPaddleCollide; split_ifs <;> rfl

@[simp]
theorem leftPaddleCollide_paddleRightY (s : GameState) :
    (leftPaddleCollide s).paddleRightY = s.paddleRightY := by
  unfold leftPaddleCollide; split_ifs <;> rfl

@[simp]
theorem leftPaddleCollide_scoreLeft (s : GameState) :
    (leftPaddleCollide s).scoreLeft = s.scoreLeft := by
  unfold leftPaddleCollide; split_ifs <;> rfl

@[simp]
theorem leftPaddleCollide_scoreRight (s : GameState) :
    (leftPaddleCollide s).scoreRight = s.scoreRight := by
  unfold leftPaddleCollide; split_ifs <;> rfl

@[simp]
theorem leftPaddleCollide_isRunning (s : GameState) :
    (leftPaddleCollide s).isRunning = s.isRunning := by
  unfold leftPaddleCollide; split_ifs <;> rfl

@[simp]
theorem leftPaddleCollide_isGameOver (s : GameState) :
    (leftPaddleCollide s).isGameOver = s.isGameOver := by
  unfold leftPaddleCollide; split_ifs <;> rfl

@[simp]
theorem leftPaddleCollide_mode (s : GameState) : (leftPaddleCollide s).mode = s.mode := by
  unfold leftPaddleCollide; split_ifs <;> rfl

@[simp]
theorem rightPaddleCollide_x (s : GameState) : (rightPaddleCollide s).ball.x = s.ball.x := by
  unfold rightPaddleCollide; split_ifs <;> rfl

@[simp]
theorem rightPaddleCollide_y (s : GameState) : (rightPaddleCollide s).ball.y = s.ball.y := by
  unfold rightPaddleCollide; split_ifs <;> rfl

@[simp]
theorem rightPaddleCollide_paddleLeftY (s : GameState) :
    (rightPaddleCollide s).paddleLeftY = s.paddleLeftY := by
  unfold rightPaddleCollide; split_ifs <;> rfl

@[simp]
theorem rightPaddleCollide_paddleRightY (s : GameState) :
    (rightPaddleCollide s).paddleRightY = s.paddleRightY := by
  unfold rightPaddleCollide; split_ifs <;> rfl

@[simp]
theorem rightPaddleCollide_scoreLeft (s : GameState) :
    (rightPaddleCollide s).scoreLeft = s.scoreLeft := by
  unfold rightPaddleCollide; split_ifs <;> rfl

@[simp]
theorem rightPaddleCollide_scoreRight (s : GameState) :
    (rightPaddleCollide s).scoreRight = s.scoreRight := by
  unfold rightPaddleCollide; split_ifs <;> rfl

@[simp]
theorem rightPaddleCollide_isRunning (s : GameState) :
    (rightPaddleCollide s).isRunning = s.isRunning := by
  unfold rightPaddleCollide; split_ifs <;> rfl

@[simp]
theorem rightPaddleCollide_isGameOver (s : GameState) :
    (rightPaddleCollide s).isGameOver = s.isGameOver := by
  unfold rightPaddleCollide; split_ifs <;> rfl

@[simp]
theorem rightPaddleCollide_mode (s : GameState) : (rightPaddleCollide s).mode = s.mode := by
  unfold rightPaddleCollide; split_ifs <;> rfl

@[simp]
theorem scoreStep_paddleLeftY (ln rn : String) (r : Bool) (s : GameState) :
    (scoreStep ln rn r s).paddleLeftY = s.paddleLeftY := by
  simp only [scoreStep, checkWinCondition, endGame]; split_ifs <;> rfl

@[simp]
theorem scoreStep_paddleRightY (ln rn : String) (r : Bool) (s : GameState) :
    (scoreStep ln rn r s).paddleRightY = s.paddleRightY := by
  simp only [scoreStep, checkWinCondition, endGame]; split_ifs <;> rfl

@[simp]
theorem scoreStep_mode (ln rn : String) (r : Bool) (s : GameState) :
    (scoreStep ln rn r s).mode = s.mode := by
  simp only [scoreStep, checkWinCondition, endGame]; split_ifs <;> rfl

theorem scoreStep_of_infield (ln rn : String) (r : Bool) (s : GameState)
    (h1 : 0 ≤ s.ball.x) (h2 : s.ball.x ≤ GAME_WIDTH) :
    scoreStep ln rn r s = s := by
  unfold scoreStep
  rw [if_neg (not_lt.2 h1), if_neg (not_lt.2 h2)]

theorem leftPaddleCollide_of_miss (s : GameState) (h : ¬ overlapLeft s) :
    leftPaddleCollide s = s := by
  unfold leftPaddleCollide; rw [if_neg h]

theorem rightPaddleCollide_of_miss (s : GameState) (h : ¬ overlapRight s) :
    rightPaddleCollide s = s := by
  unfold rightPaddleCollide; rw [if_neg h]

theorem update_of_frozen (ln rn : String) (r : Bool) (s : GameState)
    (h : s.isRunning = false ∨ s.isGameOver = true) :
    update ln rn r s = s := by
  unfold update; rw [if_pos h]

end Pong

namespace Pong

/-! ### Paddle bound helpers -/

theorem clamp_paddleInBounds (v : ℚ) :
    paddleInBounds (max 0 (min (GAME_HEIGHT - PADDLE_HEIGHT) v)) := by
  constructor
  · exact le_max_left 0 _
  · apply max_le
    · norm_num [GAME_HEIGHT, PADDLE_HEIGHT]
    · exact min_le_left _ _

theorem aiMove_paddleRightY_inBounds (s : GameState) :
    paddleInBounds (aiMove s).paddleRightY :=
  clamp_paddleInBounds _

/-! ### Claim theorems: C10, C7, C8, C1 -/

/-- C10: once the match is not running or is over, a tick of `update` is a
no-op — the entire match state (ball, paddles, scores, flags) is returned
unchanged, for any nicknames and any random outcome. -/
theorem frozen_state_tick_noop (ln rn : String) (r : Bool) (s : GameState)
    (h : s.isRunning = false ∨ s.isGameOver = true) :
    update ln rn r s = s :=
  update_of_frozen ln rn r s h

/-- Witness for C10 at a concrete ended match: `endGame` stops the match
and the next tick leaves the state untouched. -/
theorem frozen_state_tick_noop_witness :
    update "L" "R" false (endGame "W" (startGame Mode.SINGLE false)) =
      endGame "W" (startGame Mode.SINGLE false) :=
  frozen_state_tick_noop "L" "R" false _ (Or.inl rfl)

/-- C7: a CLIENT-mode tick only extrapolates the ball position by the
current velocity; velocity, speed, scores, paddles and the lifecycle flags
are all unchanged (the result is the input state with only ball.x and
ball.y advanced). -/
theorem client_tick_extrapolation_only (ln rn : String) (r : Bool)
    (s : GameState) (hm : s.mode = Mode.CLIENT) (hr : s.isRunning = true)
    (ho : s.isGameOver = false) :
    update ln rn r s =
      { s with ball := { s.ball with
          x := s.ball.x + s.ball.dx
          y := s.ball.y + s.ball.dy } } := by
  unfold update
  rw [if_neg (by simp [hr, ho]), if_pos hm]
  rfl

/-- Witness for C7 at a freshly started CLIENT match. -/
theorem client_tick_extrapolation_only_witness :
    update "L" "R" false (startGame Mode.CLIENT false) =
      { startGame Mode.CLIENT false with ball := {
          (startGame Mode.CLIENT false).ball with
          x := (startGame Mode.CLIENT false).ball.x + (startGame Mode.CLIENT false).ball.dx
          y := (startGame Mode.CLIENT false).ball.y + (startGame Mode.CLIENT false).ball.dy } } :=
  client_tick_extrapolation_only "L" "R" false _ rfl rfl rfl

/-- C8: reconciliation of a snapshot overwrites both scores and the
opponent (left) paddle offset with the snapshot values, always overwrites
the ball velocity with the snapshot velocity, and leaves the client's own
right paddle offset and the isRunning/isGameOver/winner/mode fields
unchanged. -/
theorem snapshot_reconciliation_fields (net : NetworkState) (s : GameState) :
    (handleNetworkState net s).scoreLeft = net.sLeft ∧
    (handleNetworkState net s).scoreRight = net.sRight ∧
    (handleNetworkState net s).paddleLeftY = net.pLeft ∧
    (handleNetworkState net s).ball.dx = net.ball.dx ∧
    (handleNetworkState net s).ball.dy = net.ball.dy ∧
    (handleNetworkState net s).paddleRightY = s.paddleRightY ∧
    (handleNetworkState net s).isRunning = s.isRunning ∧
    (handleNetworkState net s).isGameOver = s.isGameOver ∧
    (handleNetworkState net s).winner = s.winner ∧
    (handleNetworkState net s).mode = s.mode :=
  ⟨rfl, rfl, rfl, rfl, rfl, rfl, rfl, rfl, rfl, rfl⟩

/-- Counterexample to C1 as stated: the HOST INPUT handler writes the
received offset without clamping, so from an in-bounds state a received
INPUT with y = 1000 drives the right paddle offset out of
[0, GAME_HEIGHT - PADDLE_HEIGHT]. -/
theorem host_input_write_escapes_bounds :
    paddlesInBounds (startGame Mode.HOST false) ∧
    (applyInputMessage 1000 (startGame Mode.HOST false)).paddleRightY = 1000 ∧
    ¬ paddlesInBounds (applyInputMessage 1000 (startGame Mode.HOST false)) := by
  refine ⟨?_, rfl, ?_⟩
  · norm_num [paddlesInBounds, paddleInBounds, startGame, GAME_HEIGHT, PADDLE_HEIGHT]
  · norm_num [paddlesInBounds, paddleInBounds, applyInputMessage, startGame,
      GAME_HEIGHT, PADDLE_HEIGHT]

/-- C1 (amended): local pointer input always clamps the written offset into
[0, GAME_HEIGHT - PADDLE_HEIGHT]; the AI write and every tick of `update`
keep both offsets in bounds; and the HOST applying a received INPUT
message preserves the bounds provided the carried offset is itself in
bounds (as it is when produced by a conforming client, which only ever
sends clamped values). -/
theorem paddle_offsets_stay_in_bounds (s : GameState) (h : paddlesInBounds s) :
    (∀ relY : ℚ, paddlesInBounds (handleInput relY s)) ∧
    (∀ y : ℚ, paddleInBounds y → paddlesInBounds (applyInputMessage y s)) ∧
    (∀ (ln rn : String) (r : Bool), paddlesInBounds (update ln rn r s)) := by
  obtain ⟨hL, hR⟩ := h
  refine ⟨?_, ?_, ?_⟩
  · intro relY
    unfold handleInput
    split_ifs
    · exact ⟨hL, clamp_paddleInBounds _⟩
    · exact ⟨clamp_paddleInBounds _, hR⟩
  · intro y hy
    exact ⟨hL, hy⟩
  · intro ln rn r
    unfold update
    split_ifs with h1 h2
    · exact ⟨hL, hR⟩
    · exact ⟨hL, hR⟩
    · have hpl : (physicsTick ln rn r s).paddleLeftY = s.paddleLeftY := by
        unfold physicsTick
        split_ifs <;> simp
      have hpr : paddleInBounds (physicsTick ln rn r s).paddleRightY := by
        unfold physicsTick
        split_ifs with hm
        · simpa using aiMove_paddleRightY_inBounds s
        · simpa using hR
      exact ⟨hpl ▸ hL, hpr⟩

/-- Witness for C1 (amended) at a concrete in-bounds HOST state: a pointer
move to an extreme position stays clamped, an in-bounds INPUT write stays
in bounds, and a tick preserves the bounds. -/
theorem paddle_offsets_stay_in_bounds_witness :
    paddlesInBounds (handleInput 10000 (startGame Mode.HOST false)) ∧
    paddlesInBounds (applyInputMessage 500 (startGame Mode.HOST false)) ∧
    paddlesInBounds (update "L" "R" false (startGame Mode.HOST false)) := by
  have h := paddle_offsets_stay_in_bounds (startGame Mode.HOST false)
    (by norm_num [paddlesInBounds, paddleInBounds, startGame, GAME_HEIGHT, PADDLE_HEIGHT])
  exact ⟨h.1 10000,
    h.2.1 500 (by norm_num [paddleInBounds, GAME_HEIGHT, PADDLE_HEIGHT]),
    h.2.2 "L" "R" false⟩

end Pong

namespace Pong

/-! ### checkWinCondition / resetBall projection lemmas -/

@[simp]
theorem checkWinCondition_scoreLeft (ln rn : String) (s : GameState) :
    (checkWinCondition ln rn s).scoreLeft = s.scoreLeft := by
  unfold checkWinCondition endGame; split_ifs <;> rfl

@[simp]
theorem checkWinCondition_scoreRight (ln rn : String) (s : GameState) :
    (checkWinCondition ln rn s).scoreRight = s.scoreRight := by
  unfold checkWinCondition endGame; split_ifs <;> rfl

@[simp]
theorem checkWinCondition_ball (ln rn : String) (s : GameState) :
    (checkWinCondition ln rn s).ball = s.ball := by
  unfold checkWinCondition endGame; split_ifs <;> rfl

@[simp]
theorem checkWinCondition_paddleLeftY (ln rn : String) (s : GameState) :
    (checkWinCondition ln rn s).paddleLeftY = s.paddleLeftY := by
  unfold checkWinCondition endGame; split_ifs <;> rfl

@[simp]
theorem checkWinCondition_paddleRightY (ln rn : String) (s : GameState) :
    (checkWinCondition ln rn s).paddleRightY = s.paddleRightY := by
  unfold checkWinCondition endGame; split_ifs <;> rfl

@[simp]
theorem checkWinCondition_mode (ln rn : String) (s : GameState) :
    (checkWinCondition ln rn s).mode = s.mode := by
  unfold checkWinCondition endGame; split_ifs <;> rfl

theorem checkWinCondition_isGameOver_iff (ln rn : String) (s : GameState)
    (h : s.isGameOver = false) :
    ((checkWinCondition ln rn s).isGameOver = true ↔
      (WINNING_SCORE ≤ s.scoreLeft ∨ WINNING_SCORE ≤ s.scoreRight)) := by
  by_cases h1 : WINNING_SCORE ≤ s.scoreLeft
  · unfold checkWinCondition
    rw [if_pos h1]
    simp [endGame, h1]
  · by_cases h2 : WINNING_SCORE ≤ s.scoreRight
    · unfold checkWinCondition
      rw [if_neg h1, if_pos h2]
      simp [endGame, h2]
    · unfold checkWinCondition
      rw [if_neg h1, if_neg h2]
      simp [h, h1, h2]

@[simp]
theorem resetBall_x (side : Side) (r : Bool) (b : Ball) :
    (resetBall side r b).x = GAME_WIDTH / 2 - BALL_SIZE / 2 := rfl

@[simp]
theorem resetBall_y (side : Side) (r : Bool) (b : Ball) :
    (resetBall side r b).y = GAME_HEIGHT / 2 - BALL_SIZE / 2 := rfl

@[simp]
theorem resetBall_speed (side : Side) (r : Bool) (b : Ball) :
    (resetBall side r b).speed = INITIAL_BALL_SPEED := rfl

@[simp]
theorem resetBall_dx (side : Side) (r : Bool) (b : Ball) :
    (resetBall side r b).dx =
      (if side = Side.left then 1 else -1) * INITIAL_BALL_SPEED := rfl

@[simp]
theorem resetBall_dy (side : Side) (r : Bool) (b : Ball) :
    (resetBall side r b).dy =
      (if r then 1 else -1) * (INITIAL_BALL_SPEED * (3 / 4)) := rfl

/-! ### Claim theorems: C5, C4 -/

/-- C5: when a score has reached the winning threshold (11) on the
authoritative side, the win check transitions the match to game over
(isGameOver true, isRunning false), the recorded winner is the identity
bound to the side that reached the threshold (left → the local name,
right → the remote name), and the transition happens exactly once: every
later tick leaves the ended state completely unchanged. -/
theorem win_threshold_transition (ln rn : String) (s : GameState)
    (hm : s.mode ≠ Mode.CLIENT)
    (h : WINNING_SCORE ≤ s.scoreLeft ∨ WINNING_SCORE ≤ s.scoreRight) :
    (checkWinCondition ln rn s).isGameOver = true ∧
    (checkWinCondition ln rn s).isRunning = false ∧
    (WINNING_SCORE ≤ s.scoreLeft → (checkWinCondition ln rn s).winner = some ln) ∧
    (s.scoreLeft < WINNING_SCORE → (checkWinCondition ln rn s).winner = some rn) ∧
    (∀ (ln2 rn2 : String) (r : Bool),
      update ln2 rn2 r (checkWinCondition ln rn s) = checkWinCondition ln rn s) := by
  by_cases hl : WINNING_SCORE ≤ s.scoreLeft
  · unfold checkWinCondition
    rw [if_pos hl]
    refine ⟨rfl, rfl, fun _ => ?_, fun hlt => absurd hl (not_le.2 hlt),
      fun ln2 rn2 r => ?_⟩
    · simp [endGame, hm]
    · exact update_of_frozen _ _ _ _ (Or.inl rfl)
  · have hr2 : WINNING_SCORE ≤ s.scoreRight := h.resolve_left hl
    unfold checkWinCondition
    rw [if_neg hl, if_pos hr2]
    refine ⟨rfl, rfl, fun hle => absurd hle hl, fun _ => ?_, fun ln2 rn2 r => ?_⟩
    · simp [endGame, hm]
    · exact update_of_frozen _ _ _ _ (Or.inl rfl)

/-- Witness for C5 at a concrete HOST state whose left score sits at the
threshold. -/
theorem win_threshold_transition_witness :
    (checkWinCondition "L" "R" { scoreProbeState with scoreLeft := 11 }).isGameOver = true ∧
    (checkWinCondition "L" "R" { scoreProbeState with scoreLeft := 11 }).isRunning = false ∧
    (checkWinCondition "L" "R" { scoreProbeState with scoreLeft := 11 }).winner = some "L" := by
  have h := win_threshold_transition "L" "R" { scoreProbeState with scoreLeft := 11 }
    (by simp [scoreProbeState]) (Or.inl (by norm_num [scoreProbeState, WINNING_SCORE]))
  exact ⟨h.1, h.2.1, h.2.2.1 (by norm_num [scoreProbeState, WINNING_SCORE])⟩

/-- C4: an authoritative tick whose integrated ball x passes the right
field edge increments the left score by exactly 1, leaves the right score
unchanged, evaluates the win condition on the incremented score (the
game-over flag afterwards is true exactly when a score has reached the
threshold) and resets the ball so its center sits at the field center,
with speed back at the initial value, dx toward the right side
(+INITIAL_BALL_SPEED) and dy of magnitude 0.75 * speed, its sign given by
the random draw. The win check runs before the reset: both effects land in
the same tick even when the match ends. -/
theorem right_edge_scoring (ln rn : String) (r : Bool) (s : GameState)
    (hr : s.isRunning = true) (ho : s.isGameOver = false)
    (hm : s.mode ≠ Mode.CLIENT)
    (hx : GAME_WIDTH < s.ball.x + s.ball.dx) :
    (update ln rn r s).scoreLeft = s.scoreLeft + 1 ∧
    (update ln rn r s).scoreRight = s.scoreRight ∧
    (update ln rn r s).ball.x + BALL_SIZE / 2 = GAME_WIDTH / 2 ∧
    (update ln rn r s).ball.y + BALL_SIZE / 2 = GAME_HEIGHT / 2 ∧
    (update ln rn r s).ball.speed = INITIAL_BALL_SPEED ∧
    (update ln rn r s).ball.dx = INITIAL_BALL_SPEED ∧
    (update ln rn r s).ball.dy = (if r then 1 else -1) * (INITIAL_BALL_SPEED * (3 / 4)) ∧
    ((update ln rn r s).isGameOver = true ↔
      (WINNING_SCORE ≤ s.scoreLeft + 1 ∨ WINNING_SCORE ≤ s.scoreRight)) := by
  have hfr : ¬ (s.isRunning = false ∨ s.isGameOver = true) := by simp [hr, ho]
  have hx800 : (800 : ℚ) < s.ball.x + s.ball.dx := by
    rw [GAME_WIDTH] at hx; exact_mod_cast hx
  unfold update
  rw [if_neg hfr, if_neg hm]
  unfold physicsTick
  set t0 := if s.mode = Mode.SINGLE then aiMove s else s with ht0
  have hb0 : t0.ball = s.ball := by rw [ht0]; split <;> rfl
  have hsl0 : t0.scoreLeft = s.scoreLeft := by rw [ht0]; split <;> rfl
  have hsr0 : t0.scoreRight = s.scoreRight := by rw [ht0]; split <;> rfl
  have hgo0 : t0.isGameOver = s.isGameOver := by rw [ht0]; split <;> rfl
  set t2 := wallBounce (moveBall t0) with ht2
  have hx2 : t2.ball.x = s.ball.x + s.ball.dx := by
    rw [ht2]; simp [hb0]
  have hmissL : ¬ overlapLeft t2 := by
    intro hov
    have h1 := hov.1
    rw [hx2] at h1
    norm_num [PADDLE_INSET, PADDLE_WIDTH] at h1
    linarith
  have hmissR : ¬ overlapRight t2 := by
    intro hov
    have h1 := hov.1
    rw [hx2] at h1
    norm_num [GAME_WIDTH, PADDLE_INSET, PADDLE_WIDTH] at h1
    linarith
  rw [leftPaddleCollide_of_miss _ hmissL, rightPaddleCollide_of_miss _ hmissR]
  have key : scoreStep ln rn r t2 =
      { checkWinCondition ln rn { t2 with scoreLeft := t2.scoreLeft + 1 } with
        ball := resetBall Side.left r
          (checkWinCondition ln rn { t2 with scoreLeft := t2.scoreLeft + 1 }).ball } := by
    unfold scoreStep
    rw [if_neg (not_lt.2 (by rw [hx2]; linarith)), if_pos (by rw [hx2]; exact hx)]
  rw [key]
  have hgo2 : ({ t2 with scoreLeft := t2.scoreLeft + 1 } : GameState).isGameOver = false := by
    rw [ht2]; simp [hgo0, ho]
  refine ⟨?_, ?_, ?_, ?_, ?_, ?_, ?_, ?_⟩
  · simp [ht2, hsl0]
  · simp [ht2, hsr0]
  · simp
  · simp
  · simp
  · simp
  · simp
  · have := checkWinCondition_isGameOver_iff ln rn
      { t2 with scoreLeft := t2.scoreLeft + 1 } hgo2
    simpa [ht2, hsl0, hsr0] using this

/-- Witness for C4 at `scoreProbeState` (ball at x = 795 moving +14). -/
theorem right_edge_scoring_witness :
    (update "L" "R" true scoreProbeState).scoreLeft = 11 ∧
    (update "L" "R" true scoreProbeState).ball.speed = INITIAL_BALL_SPEED ∧
    ((update "L" "R" true scoreProbeState).isGameOver = true) := by
  have h := right_edge_scoring "L" "R" true scoreProbeState rfl rfl
    (by simp [scoreProbeState])
    (by norm_num [scoreProbeState, GAME_WIDTH])
  refine ⟨?_, h.2.2.2.2.1, ?_⟩
  · rw [h.1]; norm_num [scoreProbeState]
  · exact h.2.2.2.2.2.2.2.mpr (Or.inl (by norm_num [scoreProbeState, WINNING_SCORE]))

end Pong

namespace Pong

/-! ### Reconciliation position characterization -/

theorem handleNetworkState_ball_x (net : NetworkState) (s : GameState) :
    (handleNetworkState net s).ball.x =
      if 2500 < (s.ball.x - net.ball.x) ^ 2 + (s.ball.y - net.ball.y) ^ 2
      then net.ball.x
      else s.ball.x + (net.ball.x - s.ball.x) * (1 / 2) := by
  simp only [handleNetworkState]
  split_ifs <;> rfl

theorem handleNetworkState_ball_y (net : NetworkState) (s : GameState) :
    (handleNetworkState net s).ball.y =
      if 2500 < (s.ball.x - net.ball.x) ^ 2 + (s.ball.y - net.ball.y) ^ 2
      then net.ball.y
      else s.ball.y + (net.ball.y - s.ball.y) * (1 / 2) := by
  simp only [handleNetworkState]
  split_ifs <;> rfl

/-! ### Claim theorems: C3, C6, C9 -/

/-- C3: reconciliation of the predicted ball position against a snapshot.
If the squared distance exceeds 2500 (Euclidean distance > 50) the
predicted position is set exactly to the snapshot position. Otherwise one
application quarters the squared distance — i.e. halves the Euclidean
distance — so the prediction moves monotonically closer without overshoot,
and a second application of the same snapshot (necessarily below the snap
threshold) quarters it again: geometric convergence. -/
theorem snapshot_ball_reconciliation (net : NetworkState) (s : GameState) :
    (2500 < (s.ball.x - net.ball.x) ^ 2 + (s.ball.y - net.ball.y) ^ 2 →
      (handleNetworkState net s).ball.x = net.ball.x ∧
      (handleNetworkState net s).ball.y = net.ball.y) ∧
    ((s.ball.x - net.ball.x) ^ 2 + (s.ball.y - net.ball.y) ^ 2 ≤ 2500 →
      4 * (((handleNetworkState net s).ball.x - net.ball.x) ^ 2 +
           ((handleNetworkState net s).ball.y - net.ball.y) ^ 2) =
        (s.ball.x - net.ball.x) ^ 2 + (s.ball.y - net.ball.y) ^ 2 ∧
      ((handleNetworkState net s).ball.x - net.ball.x) ^ 2 +
          ((handleNetworkState net s).ball.y - net.ball.y) ^ 2 ≤
        (s.ball.x - net.ball.x) ^ 2 + (s.ball.y - net.ball.y) ^ 2 ∧
      16 * (((handleNetworkState net (handleNetworkState net s)).ball.x - net.ball.x) ^ 2 +
            ((handleNetworkState net (handleNetworkState net s)).ball.y - net.ball.y) ^ 2) =
        (s.ball.x - net.ball.x) ^ 2 + (s.ball.y - net.ball.y) ^ 2) := by
  constructor
  · intro h
    constructor
    · rw [handleNetworkState_ball_x, if_pos h]
    · rw [handleNetworkState_ball_y, if_pos h]
  · intro h
    have hx1 : (handleNetworkState net s).ball.x - net.ball.x =
        (s.ball.x - net.ball.x) / 2 := by
      rw [handleNetworkState_ball_x, if_neg (not_lt.2 h)]; ring
    have hy1 : (handleNetworkState net s).ball.y - net.ball.y =
        (s.ball.y - net.ball.y) / 2 := by
      rw [handleNetworkState_ball_y, if_neg (not_lt.2 h)]; ring
    have hq : ((handleNetworkState net s).ball.x - net.ball.x) ^ 2 +
        ((handleNetworkState net s).ball.y - net.ball.y) ^ 2 ≤ 2500 := by
      rw [hx1, hy1]
      nlinarith [sq_nonneg (s.ball.x - net.ball.x), sq_nonneg (s.ball.y - net.ball.y)]
    have hx2 : (handleNetworkState net (handleNetworkState net s)).ball.x - net.ball.x =
        ((handleNetworkState net s).ball.x - net.ball.x) / 2 := by
      rw [handleNetworkState_ball_x, if_neg (not_lt.2 hq)]; ring
    have hy2 : (handleNetworkState net (handleNetworkState net s)).ball.y - net.ball.y =
        ((handleNetworkState net s).ball.y - net.ball.y) / 2 := by
      rw [handleNetworkState_ball_y, if_neg (not_lt.2 hq)]; ring
    refine ⟨?_, ?_, ?_⟩
    · rw [hx1, hy1]; ring
    · rw [hx1, hy1]
      nlinarith [sq_nonneg (s.ball.x - net.ball.x), sq_nonneg (s.ball.y - net.ball.y)]
    · rw [hx2, hy2, hx1, hy1]; ring

/-- Witness for C3 at a snapshot exactly 50 units from the prediction
(squared distance 2500, the blend branch): one application quarters the
squared distance. -/
theorem snapshot_ball_reconciliation_witness :
    (reconProbeState.ball.x - reconProbeNet.ball.x) ^ 2 +
      (reconProbeState.ball.y - reconProbeNet.ball.y) ^ 2 ≤ 2500 ∧
    4 * (((handleNetworkState reconProbeNet reconProbeState).ball.x - reconProbeNet.ball.x) ^ 2 +
         ((handleNetworkState reconProbeNet reconProbeState).ball.y - reconProbeNet.ball.y) ^ 2) =
      (reconProbeState.ball.x - reconProbeNet.ball.x) ^ 2 +
      (reconProbeState.ball.y - reconProbeNet.ball.y) ^ 2 := by
  have hle : (reconProbeState.ball.x - reconProbeNet.ball.x) ^ 2 +
      (reconProbeState.ball.y - reconProbeNet.ball.y) ^ 2 ≤ 2500 := by
    norm_num [reconProbeState, reconProbeNet]
  exact ⟨hle, ((snapshot_ball_reconciliation reconProbeNet reconProbeState).2 hle).1⟩

/-- Counterexample to C6 as stated: at `aiProbeState` the ball's vertical
center (252) is 12 > 10 units below the AI paddle's center (240), so the
claim demands a downward step, but the code holds the paddle: the dead
zone is measured against the ball's top edge (246 - 40 = 206 lies within
[190, 210]), not its center. -/
theorem ai_dead_zone_counterexample :
    aiProbeState.mode = Mode.SINGLE ∧
    10 < aiProbeState.ball.y + BALL_SIZE / 2 -
      (aiProbeState.paddleRightY + PADDLE_HEIGHT / 2) ∧
    (aiMove aiProbeState).paddleRightY = aiProbeState.paddleRightY := by
  refine ⟨rfl, ?_, ?_⟩
  · norm_num [aiProbeState, BALL_SIZE, PADDLE_HEIGHT]
  · norm_num [aiMove, aiProbeState, PADDLE_HEIGHT, COMPUTER_SPEED, GAME_HEIGHT,
      min_def, max_def]

/-- C6 (amended): the AI step moves the right paddle by the fixed step 6.5
using a dead zone of 10 units measured between the BALL'S TOP EDGE
(ball.y) and the AI paddle's center — not between the two vertical
centers — then clamps into the paddle bounds; and it runs only in SINGLE
mode: in HOST and CLIENT modes a tick never moves the right paddle, while
in a running SINGLE tick the right paddle is exactly the AI step's
output. -/
theorem ai_tracking_step (s : GameState) :
    ((aiMove s).paddleRightY =
      max 0 (min (GAME_HEIGHT - PADDLE_HEIGHT)
        (if 10 < s.ball.y - (s.paddleRightY + PADDLE_HEIGHT / 2) then
          s.paddleRightY + COMPUTER_SPEED
        else if s.ball.y - (s.paddleRightY + PADDLE_HEIGHT / 2) < -10 then
          s.paddleRightY - COMPUTER_SPEED
        else s.paddleRightY))) ∧
    (∀ (ln rn : String) (r : Bool), s.mode ≠ Mode.SINGLE →
      (update ln rn r s).paddleRightY = s.paddleRightY) ∧
    (∀ (ln rn : String) (r : Bool), s.isRunning = true → s.isGameOver = false →
      s.mode = Mode.SINGLE →
      (update ln rn r s).paddleRightY = (aiMove s).paddleRightY) := by
  refine ⟨?_, ?_, ?_⟩
  · simp only [aiMove]
    split_ifs <;> first | rfl | linarith
  · intro ln rn r hm
    unfold update
    split_ifs with hf hc
    · rfl
    · simp
    · unfold physicsTick
      rw [if_neg hm]
      simp
  · intro ln rn r hr ho hm
    unfold update
    rw [if_neg (by simp [hr, ho]), if_neg (by simp [hm])]
    unfold physicsTick
    rw [if_pos hm]
    simp

/-- Witness for C6 (amended): a running SINGLE tick routes the right
paddle through the AI step, and a HOST tick leaves it unchanged. -/
theorem ai_tracking_step_witness :
    (update "L" "R" false aiProbeState).paddleRightY =
      (aiMove aiProbeState).paddleRightY ∧
    (update "L" "R" false (startGame Mode.HOST false)).paddleRightY =
      (startGame Mode.HOST false).paddleRightY := by
  constructor
  · exact (ai_tracking_step aiProbeState).2.2 "L" "R" false rfl rfl rfl
  · exact (ai_tracking_step (startGame Mode.HOST false)).2.1 "L" "R" false
      (by simp [startGame])

/-- C9: on a paddle collision the vertical velocity becomes
(hit offset from the paddle center) / (half the paddle height) * 10 — in
particular 0 on an exact center hit — and, if the ball was moving toward
the struck paddle, the horizontal velocity comes out with its sign
reversed (away from the paddle). -/
theorem paddle_hit_response (s : GameState) (hsp : 0 ≤ s.ball.speed) :
    (overlapLeft s →
      (leftPaddleCollide s).ball.dy =
        (s.ball.y + BALL_SIZE / 2 - (s.paddleLeftY + PADDLE_HEIGHT / 2)) /
          (PADDLE_HEIGHT / 2) * 10 ∧
      (s.ball.y + BALL_SIZE / 2 = s.paddleLeftY + PADDLE_HEIGHT / 2 →
        (leftPaddleCollide s).ball.dy = 0) ∧
      (s.ball.dx < 0 → 0 < (leftPaddleCollide s).ball.dx)) ∧
    (overlapRight s →
      (rightPaddleCollide s).ball.dy =
        (s.ball.y + BALL_SIZE / 2 - (s.paddleRightY + PADDLE_HEIGHT / 2)) /
          (PADDLE_HEIGHT / 2) * 10 ∧
      (s.ball.y + BALL_SIZE / 2 = s.paddleRightY + PADDLE_HEIGHT / 2 →
        (rightPaddleCollide s).ball.dy = 0) ∧
      (0 < s.ball.dx → (rightPaddleCollide s).ball.dx < 0)) := by
  constructor
  · intro hov
    have hdy : (leftPaddleCollide s).ball.dy =
        (s.ball.y + BALL_SIZE / 2 - (s.paddleLeftY + PADDLE_HEIGHT / 2)) /
          (PADDLE_HEIGHT / 2) * 10 := by
      unfold leftPaddleCollide
      rw [if_pos hov]
      split_ifs <;> rfl
    refine ⟨hdy, fun hc => ?_, fun hdx => ?_⟩
    · rw [hdy, hc]
      simp
    · unfold leftPaddleCollide
      rw [if_pos hov]
      split_ifs with h14
      · show (0 : ℚ) < s.ball.speed + 1 / 2
        linarith
      · show (0 : ℚ) < |s.ball.dx|
        exact abs_pos.2 (ne_of_lt hdx)
  · intro hov
    have hdy : (rightPaddleCollide s).ball.dy =
        (s.ball.y + BALL_SIZE / 2 - (s.paddleRightY + PADDLE_HEIGHT / 2)) /
          (PADDLE_HEIGHT / 2) * 10 := by
      unfold rightPaddleCollide
      rw [if_pos hov]
      split_ifs <;> rfl
    refine ⟨hdy, fun hc => ?_, fun hdx => ?_⟩
    · rw [hdy, hc]
      simp
    · unfold rightPaddleCollide
      rw [if_pos hov]
      split_ifs with h14
      · show -(s.ball.speed + 1 / 2) < (0 : ℚ)
        linarith
      · show -|s.ball.dx| < (0 : ℚ)
        simpa using abs_pos.2 (ne_of_gt hdx)
  
/-- Witness for C9 at exact-center hits on both paddles. -/
theorem paddle_hit_response_witness :
    (leftPaddleCollide hitProbeState).ball.dy = 0 ∧
    0 < (leftPaddleCollide hitProbeState).ball.dx ∧
    (rightPaddleCollide hitProbeStateR).ball.dy = 0 ∧
    (rightPaddleCollide hitProbeStateR).ball.dx < 0 := by
  have hL := (paddle_hit_response hitProbeState (by norm_num [hitProbeState])).1
    (by norm_num [overlapLeft, hitProbeState, PADDLE_INSET, PADDLE_WIDTH,
      BALL_SIZE, PADDLE_HEIGHT])
  have hR := (paddle_hit_response hitProbeStateR (by norm_num [hitProbeStateR])).2
    (by norm_num [overlapRight, hitProbeStateR, GAME_WIDTH, PADDLE_INSET,
      PADDLE_WIDTH, BALL_SIZE, PADDLE_HEIGHT])
  exact ⟨hL.2.1 (by norm_num [hitProbeState, BALL_SIZE, PADDLE_HEIGHT]),
    hL.2.2 (by norm_num [hitProbeState]),
    hR.2.1 (by norm_num [hitProbeStateR, BALL_SIZE, PADDLE_HEIGHT]),
    hR.2.2 (by norm_num [hitProbeStateR])⟩

end Pong

namespace Pong

/-! ### Speed invariant helpers -/

theorem speedInv_resetBall (side : Side) (r : Bool) (b : Ball) :
    speedInv (resetBall side r b) := by
  constructor
  · show |(if side = Side.left then (1 : ℚ) else -1) * INITIAL_BALL_SPEED| =
      INITIAL_BALL_SPEED
    split_ifs <;> norm_num [INITIAL_BALL_SPEED]
  · exact ⟨0, by norm_num, by norm_num [INITIAL_BALL_SPEED]⟩

theorem speedInv_startGame (m : Mode) (r : Bool) : speedInv (startGame m r).ball := by
  unfold startGame
  split_ifs
  · exact ⟨by norm_num [INITIAL_BALL_SPEED], 0, by norm_num,
      by norm_num [INITIAL_BALL_SPEED]⟩
  · exact ⟨by norm_num [INITIAL_BALL_SPEED], 0, by norm_num,
      by norm_num [INITIAL_BALL_SPEED]⟩

theorem speedInv_le_max (b : Ball) (h : speedInv b) : b.speed ≤ MAX_BALL_SPEED := by
  obtain ⟨-, k, hk, hsp⟩ := h
  rw [hsp, MAX_BALL_SPEED]
  have : (k : ℚ) ≤ 14 := by exact_mod_cast hk
  linarith

theorem speedInv_moveBall (s : GameState) (h : speedInv s.ball) :
    speedInv (moveBall s).ball := by
  simpa [speedInv] using h

theorem speedInv_wallBounce (s : GameState) (h : speedInv s.ball) :
    speedInv (wallBounce s).ball := by
  simpa [speedInv] using h

theorem speedInv_leftPaddleCollide (s : GameState) (h : speedInv s.ball) :
    speedInv (leftPaddleCollide s).ball := by
  obtain ⟨habs, k, hk, hsp⟩ := h
  unfold leftPaddleCollide
  split_ifs with hov h14
  · constructor
    · show |s.ball.speed + 1 / 2| = s.ball.speed + 1 / 2
      apply abs_of_nonneg
      rw [hsp]
      positivity
    · refine ⟨k + 1, ?_, ?_⟩
      · rw [hsp, MAX_BALL_SPEED] at h14
        have hk14 : (k : ℚ) < 14 := by linarith
        have : k < 14 := by exact_mod_cast hk14
        omega
      · show s.ball.speed + 1 / 2 = 7 + ((k + 1 : ℕ) : ℚ) / 2
        rw [hsp]
        push_cast
        ring
  · refine ⟨?_, k, hk, hsp⟩
    show |(|s.ball.dx|)| = s.ball.speed
    rw [abs_abs]
    exact habs
  · exact ⟨habs, k, hk, hsp⟩

theorem speedInv_rightPaddleCollide (s : GameState) (h : speedInv s.ball) :
    speedInv (rightPaddleCollide s).ball := by
  obtain ⟨habs, k, hk, hsp⟩ := h
  unfold rightPaddleCollide
  split_ifs with hov h14
  · constructor
    · show |-(s.ball.speed + 1 / 2)| = s.ball.speed + 1 / 2
      rw [abs_neg]
      apply abs_of_nonneg
      rw [hsp]
      positivity
    · refine ⟨k + 1, ?_, ?_⟩
      · rw [hsp, MAX_BALL_SPEED] at h14
        have hk14 : (k : ℚ) < 14 := by linarith
        have : k < 14 := by exact_mod_cast hk14
        omega
      · show s.ball.speed + 1 / 2 = 7 + ((k + 1 : ℕ) : ℚ) / 2
        rw [hsp]
        push_cast
        ring
  · refine ⟨?_, k, hk, hsp⟩
    show |(-(|s.ball.dx|))| = s.ball.speed
    rw [abs_neg, abs_abs]
    exact habs
  · exact ⟨habs, k, hk, hsp⟩

theorem speedInv_scoreStep (ln rn : String) (r : Bool) (s : GameState)
    (h : speedInv s.ball) : speedInv (scoreStep ln rn r s).ball := by
  unfold scoreStep
  split_ifs with h1 h2
  · exact speedInv_resetBall Side.right r
      ((checkWinCondition ln rn { s with scoreRight := s.scoreRight + 1 }).ball)
  · exact speedInv_resetBall Side.left r
      ((checkWinCondition ln rn { s with scoreLeft := s.scoreLeft + 1 }).ball)
  · exact h

theorem speed_le_leftPaddleCollide (s : GameState) :
    s.ball.speed ≤ (leftPaddleCollide s).ball.speed := by
  unfold leftPaddleCollide
  split_ifs
  · show s.ball.speed ≤ s.ball.speed + 1 / 2
    linarith
  · exact le_refl _
  · exact le_refl _

theorem speed_le_rightPaddleCollide (s : GameState) :
    s.ball.speed ≤ (rightPaddleCollide s).ball.speed := by
  unfold rightPaddleCollide
  split_ifs
  · show s.ball.speed ≤ s.ball.speed + 1 / 2
    linarith
  · exact le_refl _
  · exact le_refl _

/-! ### Claim theorem: C2 -/

/-- C2: the speed bookkeeping of the authoritative simulation. The
invariant "speed = |dx| and speed lies on the half-unit grid from 7
upward" holds at match start and after every ball reset, is preserved by
every authoritative tick (so `speed` always equals the magnitude of the
horizontal velocity), implies speed ≤ MAX_BALL_SPEED = 14, and within a
rally (a tick whose integrated ball x stays inside the field, so no reset
fires) the speed is monotonically non-decreasing. -/
theorem ball_speed_invariant :
    (∀ (m : Mode) (r : Bool), speedInv (startGame m r).ball) ∧
    (∀ (side : Side) (r : Bool) (b : Ball), speedInv (resetBall side r b)) ∧
    (∀ b : Ball, speedInv b → b.speed ≤ MAX_BALL_SPEED) ∧
    (∀ (ln rn : String) (r : Bool) (s : GameState), s.mode ≠ Mode.CLIENT →
      speedInv s.ball → speedInv (update ln rn r s).ball) ∧
    (∀ (ln rn : String) (r : Bool) (s : GameState), s.mode ≠ Mode.CLIENT →
      speedInv s.ball → 0 ≤ s.ball.x + s.ball.dx →
      s.ball.x + s.ball.dx ≤ GAME_WIDTH →
      s.ball.speed ≤ (update ln rn r s).ball.speed) := by
  refine ⟨speedInv_startGame, speedInv_resetBall, speedInv_le_max, ?_, ?_⟩
  · intro ln rn r s hm h
    unfold update
    split_ifs with hf
    · exact h
    · unfold physicsTick
      apply speedInv_scoreStep
      apply speedInv_rightPaddleCollide
      apply speedInv_leftPaddleCollide
      apply speedInv_wallBounce
      apply speedInv_moveBall
      split_ifs with hs
      · rw [aiMove_ball]; exact h
      · exact h
  · intro ln rn r s hm h hx0 hx8
    unfold update
    split_ifs with hf
    · exact le_refl _
    · unfold physicsTick
      set t0 := if s.mode = Mode.SINGLE then aiMove s else s with ht0
      have hb0 : t0.ball = s.ball := by rw [ht0]; split <;> rfl
      have hx2 : (rightPaddleCollide (leftPaddleCollide (wallBounce
          (moveBall t0)))).ball.x = s.ball.x + s.ball.dx := by
        simp [hb0]
      rw [scoreStep_of_infield ln rn r _ (by rw [hx2]; exact hx0)
        (by rw [hx2]; exact hx8)]
      calc s.ball.speed
          = (wallBounce (moveBall t0)).ball.speed := by simp [hb0]
        _ ≤ (leftPaddleCollide (wallBounce (moveBall t0))).ball.speed :=
            speed_le_leftPaddleCollide _
        _ ≤ _ := speed_le_rightPaddleCollide _

/-- Witness for C2 at a freshly started SINGLE match (ball at the center,
integrated x = 407 stays in the field). -/
theorem ball_speed_invariant_witness :
    speedInv (startGame Mode.SINGLE false).ball ∧
    (startGame Mode.SINGLE false).ball.speed ≤ MAX_BALL_SPEED ∧
    speedInv (update "L" "R" false (startGame Mode.SINGLE false)).ball ∧
    (startGame Mode.SINGLE false).ball.speed ≤
      (update "L" "R" false (startGame Mode.SINGLE false)).ball.speed := by
  have h := ball_speed_invariant
  have hinv := h.1 Mode.SINGLE false
  refine ⟨hinv, h.2.2.1 _ hinv,
    h.2.2.2.1 "L" "R" false _ (by simp [startGame]) hinv,
    h.2.2.2.2 "L" "R" false _ (by simp [startGame]) hinv ?_ ?_⟩
  · norm_num [startGame, GAME_WIDTH, GAME_HEIGHT, INITIAL_BALL_SPEED]
  · norm_num [startGame, GAME_WIDTH, GAME_HEIGHT, INITIAL_BALL_SPEED]

end Pong
